import Mathlib

/-!
Shallow embedding of the mpesastk server (src/server.js, two variants, and
src/unnamed/part_000, a third variant) for checking the specification's
claims about the request/callback correlation engine.

Variant A = first half of src/server.js (token-validating variant).
Variant B = second half of src/server.js (IP-allowlist / Telegram variant).
Variant C = src/unnamed/part_000 (logging variant).

External I/O (the gateway HTTP call, the MailerLite directory, Telegram) is
modelled by passing its observable result in as a parameter and recording
the outbound calls the handler would issue as an explicit list of
operations.
-/

namespace MpesaStk

/-- Subject data captured from the `/subscribe` request body:
`const { name, email, phone, industry } = req.body`. -/
structure Subject where
  name : String
  email : String
  phone : String
  industry : String
deriving DecidableEq, Repr

/-- One record of the in-memory `pending` store.  All three variants store
`{ name, email, phone, industry, createdAt }`; variant A additionally sets
`originalRef` on the record when the gateway's CheckoutRequestID arrives
(`pending[stkData.CheckoutRequestID].originalRef = accountRef`). -/
structure PendingRecord where
  subject : Subject
  createdAt : Nat
  originalRef : Option String
deriving DecidableEq, Repr

/-- The in-memory `pending` JS object, as an association list from key to
record.  JS object keys are unique; `insertStore` preserves that by
overwriting the first binding of an existing key. -/
abbrev Store := List (String × PendingRecord)

/-- JS property read `pending[k]`: first binding of `k`, if any. -/
def lookupStore : Store → String → Option PendingRecord
  | [], _ => none
  | (k', v) :: rest, k => if k' = k then some v else lookupStore rest k

/-- JS property write `pending[k] = v`: overwrite the binding of `k` if it
exists, otherwise append a new one. -/
def insertStore : Store → String → PendingRecord → Store
  | [], k, v => [(k, v)]
  | (k', v') :: rest, k, v =>
      if k' = k then (k, v) :: rest else (k', v') :: insertStore rest k v

/-- JS `delete pending[k]`: drop every binding of `k` (there is at most
one in any store built through `insertStore`). -/
def eraseStore (st : Store) (k : String) : Store :=
  st.filter (fun p => p.1 != k)

/-- The spec's `takeIfPresent(key)`: atomic lookup-and-remove.  Used to
phrase the spec's store contract against the embedded store. -/
def takeIfPresent (st : Store) (k : String) : Option PendingRecord × Store :=
  match lookupStore st k with
  | none => (none, st)
  | some r => (some r, eraseStore st k)

/-- One `{Name, Value}` entry of `stkCallback.CallbackMetadata.Item`. -/
structure MetaItem where
  name : String
  value : String
deriving DecidableEq, Repr

/-- The `Body.stkCallback` object of an inbound gateway callback. -/
structure StkCallback where
  resultCode : Int
  checkoutRequestID : String
  items : List MetaItem
deriving DecidableEq, Repr

/-- A MailerLite subscriber as observed by the handlers: its id and the ids
of the groups it belongs to (`subscriber.groups.some(g => g.id === groupId)`
only reads the ids). -/
structure Subscriber where
  id : String
  groups : List String
deriving DecidableEq, Repr

/-- An outbound MailerLite call the callback handler issues (in order):
`findSubscriber`, `removeFromGroup`, `addToGroup`.  The group id is an
`Option` because `process.env[key] || process.env.MAILERLITE_DEFAULT_GROUP`
may be undefined in variant A. -/
inductive MLOp where
  | find (email : String)
  | remove (subscriberId : String) (groupId : Option String)
  | add (email nm phone : String) (groupId : Option String)
deriving DecidableEq, Repr

/-- The JSON body the callback handler answers with: either the neutral
acknowledgment `{ResultCode, ResultDesc}` or the ad-hoc `{result: ...}`
object returned when `Body.stkCallback` is missing. -/
inductive Response where
  | ack (resultCode : Int) (resultDesc : String)
  | other (field value : String)
deriving DecidableEq, Repr

/-- `true` exactly on the neutral acknowledgment shape
`{ResultCode: 0, ResultDesc: <string>}`. -/
def Response.isNeutralAck : Response → Bool
  | .ack c _ => c == 0
  | .other _ _ => false

/-- Everything observable about one run of a callback handler: the store it
leaves behind, the HTTP status and body it answers with, the MailerLite
calls it issues, and the alert messages it sends. -/
structure CallbackOutcome where
  store : Store
  status : Nat
  response : Response
  ops : List MLOp
  alerts : List String
deriving DecidableEq, Repr

/-- Read-only environment configuration the callback handlers consult:
`CALLBACK_TOKEN`, the `MAILERLITE_GROUP_*` variables (as a lookup
function), and `MAILERLITE_DEFAULT_GROUP`. -/
structure Env where
  callbackToken : Option String
  groupFor : String → Option String
  defaultGroup : Option String

/-- The industry normalisation of variants A and C:
`industry.toUpperCase().replace(/[^A-Z0-9]/g, "_")`. -/
def normalizeIndustry (s : String) : String :=
  (s.map Char.toUpper).map
    (fun c => if ('A' ≤ c ∧ c ≤ 'Z') ∨ ('0' ≤ c ∧ c ≤ '9') then c else '_')

/-- The env key `MAILERLITE_GROUP_${industry.toUpperCase().replace(...)}`. -/
def groupKey (industry : String) : String :=
  "MAILERLITE_GROUP_" ++ normalizeIndustry industry

/-- `process.env[key] || process.env.MAILERLITE_DEFAULT_GROUP`. -/
def resolveGroup (env : Env) (industry : String) : Option String :=
  match env.groupFor (groupKey industry) with
  | some g => some g
  | none => env.defaultGroup

/-- Variant A's `validateSafaricomCallback`: false when the `token` query
parameter is absent or falsy, otherwise an exact comparison against
`process.env.CALLBACK_TOKEN` (which compares unequal to everything when the
secret is unset). -/
def validateSafaricomCallback (tokenParam expected : Option String) : Bool :=
  match tokenParam with
  | none => false
  | some t => if t = "" then false else expected == some t

/-- `subscriber.groups?.some((g) => g.id === groupId)` — false when the
resolved group id is undefined. -/
def isInGroup (sub : Subscriber) (groupId : Option String) : Bool :=
  match groupId with
  | some g => sub.groups.contains g
  | none => false

/-- The `PhoneNumber` metadata value extracted by variant A's callback
handler, defaulted to `""` as in `addToGroup(email, name, payerPhone || "",
groupId)`. -/
def payerPhoneA (cb : StkCallback) : String :=
  (((cb.items.find? (fun it => it.name == "PhoneNumber")).map MetaItem.value).getD "")

/-- The MailerLite workflow of variant A's success branch: `findSubscriber`,
then `removeFromGroup` when the subscriber exists and is already in the
target group, then always `addToGroup`. -/
def enrollOps (findResult : Option Subscriber) (email nm phone : String)
    (groupId : Option String) : List MLOp :=
  MLOp.find email ::
    ((match findResult with
      | some sub => if isInGroup sub groupId then [MLOp.remove sub.id groupId] else []
      | none => []) ++ [MLOp.add email nm phone groupId])

/-- Variant A's `/callback` handler (src/server.js first variant).  The
MailerLite directory's answer to `findSubscriber` is passed in as
`findResult`; inner MailerLite failures are caught by the handler and do
not change the store, response, or deletion, so they need no extra case. -/
def callbackA (env : Env) (st : Store) (tokenParam : Option String)
    (body : Option StkCallback) (findResult : Option Subscriber) :
    CallbackOutcome :=
  if validateSafaricomCallback tokenParam env.callbackToken then
    match body with
    | none => ⟨st, 200, Response.other "result" "no-callback", [], []⟩
    | some cb =>
        let accountRef := cb.checkoutRequestID
        if cb.resultCode = 0 then
          match lookupStore st accountRef with
          | some entry =>
              let gid := resolveGroup env entry.subject.industry
              ⟨eraseStore st accountRef, 200, Response.ack 0 "Processed",
               enrollOps findResult entry.subject.email entry.subject.name
                 (payerPhoneA cb) gid, []⟩
          | none => ⟨st, 200, Response.ack 0 "No action taken", [], []⟩
        else ⟨st, 200, Response.ack 0 "No action taken", [], []⟩
  else ⟨st, 200, Response.ack 0 "Invalid token", [], []⟩

/-- The Safaricom IP allowlist `SAFE_IPS` of variant B. -/
def SAFE_IPS : List String :=
  ["196.201.214.206", "196.201.213.114", "196.201.214.207",
   "196.201.214.208", "196.201.213.44", "196.201.212.127",
   "196.201.212.138", "196.201.212.129", "196.201.212.136",
   "196.201.212.74", "196.201.212.69"]

/-- Variant B's `/callback` handler (src/server.js second variant): alerts
on a non-allowlisted source IP, deletes a matched successful record, never
talks to MailerLite, and always answers `{ResultCode:0,
ResultDesc:"Processed"}` when `Body.stkCallback` is present. -/
def callbackB (st : Store) (ip : Option String) (body : Option StkCallback) :
    CallbackOutcome :=
  let alerts :=
    match ip with
    | some a => if SAFE_IPS.contains a then [] else ["UNSAFE CALLBACK IP DETECTED: " ++ a]
    | none => []
  match body with
  | none => ⟨st, 200, Response.other "result" "no-stk-callback", [], alerts⟩
  | some cb =>
      if cb.resultCode = 0 ∧ cb.checkoutRequestID ≠ "" ∧
          (lookupStore st cb.checkoutRequestID).isSome then
        ⟨eraseStore st cb.checkoutRequestID, 200, Response.ack 0 "Processed", [], alerts⟩
      else ⟨st, 200, Response.ack 0 "Processed", [], alerts⟩

/-- The account reference variant C's callback matches on:
`accountRefItem?.Value || stkCallback?.CheckoutRequestID`. -/
def accountRefC (cb : StkCallback) : String :=
  (((cb.items.find? (fun it => it.name == "AccountReference")).map MetaItem.value).getD
    cb.checkoutRequestID)

/-- The phone variant C extracts (`PhoneNumber` or `MSISDN`), defaulted to
`""` in the MailerLite payload. -/
def payerPhoneC (cb : StkCallback) : String :=
  (((cb.items.find? (fun it => it.name == "PhoneNumber" || it.name == "MSISDN")).map
      MetaItem.value).getD "")

/-- Variant C's MailerLite workflow.  When no group id resolves, the
payload has no `groups` field and `mlPayload.groups[0]` throws before any
fetch, so the inner catch swallows the whole workflow and no MailerLite
call is issued. -/
def enrollOpsC (findResult : Option Subscriber) (email nm phone : String)
    (groupId : Option String) : List MLOp :=
  match groupId with
  | none => []
  | some g =>
      MLOp.find email ::
        ((match findResult with
          | some sub => if sub.groups.contains g then [MLOp.remove sub.id (some g)] else []
          | none => []) ++ [MLOp.add email nm phone (some g)])

/-- Variant C's `/callback` handler (src/unnamed/part_000): no token or IP
validation, matching on `accountRefC`, the MailerLite workflow of
`enrollOpsC`, deletion of the matched record, and the same neutral
acknowledgments as variant A. -/
def callbackC (env : Env) (st : Store) (body : Option StkCallback)
    (findResult : Option Subscriber) : CallbackOutcome :=
  match body with
  | none => ⟨st, 200, Response.other "result" "no-stk-callback-present", [], []⟩
  | some cb =>
      let accountRef := accountRefC cb
      if cb.resultCode = 0 then
        match lookupStore st accountRef with
        | some entry =>
            let gid := resolveGroup env entry.subject.industry
            ⟨eraseStore st accountRef, 200, Response.ack 0 "Processed",
             enrollOpsC findResult entry.subject.email entry.subject.name
               (payerPhoneC cb) gid, []⟩
        | none => ⟨st, 200, Response.ack 0 "No action taken", [], []⟩
      else ⟨st, 200, Response.ack 0 "No action taken", [], []⟩

/-- The outcome of `JSON.parse(rawText)` on the gateway's synchronous
response: a parsed body carrying an optional `CheckoutRequestID`, or a
parse failure (`rawText` was not valid JSON). -/
inductive ParseResult where
  | ok (checkoutRequestID : Option String)
  | fail
deriving DecidableEq, Repr

/-- `stkData?.CheckoutRequestID` after the parse attempt: a parse failure
leaves `stkData` null, so the id is absent. -/
def parsedCheckoutId : ParseResult → Option String
  | .ok c => c
  | .fail => none

/-- Everything observable about one run of a `/subscribe` handler: the
store it leaves behind, the HTTP status, and the payment status string of
the JSON body (`"pending"`, or the error message). -/
structure SubscribeOutcome where
  store : Store
  status : Nat
  body : String
deriving DecidableEq, Repr

/-- Variant A's `/subscribe` handler, store-and-response part: record the
subject under the fresh local reference `ref`, and once the parsed gateway
response carries a `CheckoutRequestID`, also bind that id to the same
record object and set `originalRef` on it.  The record object is shared
between the two keys, so the mutation is visible under both; the old key
is never deleted.  The parse attempt is wrapped in its own try/catch, so a
parse failure still answers `{status: "pending", ...}`. -/
def subscribeA (st : Store) (ref : String) (subj : Subject) (now : Nat)
    (parsed : ParseResult) : SubscribeOutcome :=
  let st1 := insertStore st ref ⟨subj, now, none⟩
  match parsedCheckoutId parsed with
  | some cid =>
      let r : PendingRecord := ⟨subj, now, some ref⟩
      ⟨insertStore (insertStore st1 cid r) ref r, 200, "pending"⟩
  | none => ⟨st1, 200, "pending"⟩

/-- Variant B's `/subscribe` handler, store-and-response part: reject empty
fields with 400, store the record only under the gateway's
`CheckoutRequestID` (no local-reference binding survives), and — since
`JSON.parse(rawText)` is NOT wrapped in an inner try/catch — let a parse
failure propagate to the outer catch, which answers 500 `"Failed to
initiate payment"` with nothing recorded. -/
def subscribeB (st : Store) (subj : Subject) (now : Nat)
    (parsed : ParseResult) : SubscribeOutcome :=
  if subj.name = "" ∨ subj.email = "" ∨ subj.phone = "" ∨ subj.industry = "" then
    ⟨st, 400, "Missing required fields"⟩
  else
    match parsed with
    | .fail => ⟨st, 500, "Failed to initiate payment"⟩
    | .ok none => ⟨st, 200, "pending"⟩
    | .ok (some cid) => ⟨insertStore st cid ⟨subj, now, none⟩, 200, "pending"⟩

/-- Variant C's `/subscribe` handler, store-and-response part: reject empty
fields with 400, record the subject under the fresh local reference only
(this variant never re-keys to the `CheckoutRequestID`), catch the parse
failure with an inner try/catch, and answer `{status: "pending", ...}`
either way. -/
def subscribeC (st : Store) (ref : String) (subj : Subject) (now : Nat)
    (parsed : ParseResult) : SubscribeOutcome :=
  if subj.name = "" ∨ subj.email = "" ∨ subj.phone = "" ∨ subj.industry = "" then
    ⟨st, 400, "Missing required fields"⟩
  else
    match parsed with
    | _ => ⟨insertStore st ref ⟨subj, now, none⟩, 200, "pending"⟩

/-- Modelled from the spec: `sweepExpired(maxAge)` of the Pending Store is
described in the spec ("records older than a configured maximum age ... are
silently reclaimed by `sweepExpired`") but no sweep exists anywhere in
src/ — the records carry `createdAt` yet nothing ever expires them.  The
modelled sweep keeps exactly the records whose age `now - createdAt` is at
most `maxAge`, and returns only a store: there is no response or error
channel to the original caller. -/
def sweepExpired (st : Store) (now maxAge : Nat) : Store :=
  st.filter (fun p => decide (now - p.2.createdAt ≤ maxAge))

/-- The `/_pending` debug endpoint of variants B and C:
`app.get("/_pending", (req, res) => { res.json(pending) })` — HTTP 200 with
the whole store as the body. -/
def pendingEndpoint (st : Store) : Nat × Store :=
  (200, st)

/-- Number of `addToGroup` calls in a list of MailerLite operations — the
downstream enrollment side effect proper. -/
def countAdds (ops : List MLOp) : Nat :=
  ops.countP (fun op => match op with | MLOp.add _ _ _ _ => true | _ => false)

/-- Sample subject used for concrete witnesses: the spec's scenario
`{name:"A", email:"a@x.com", phone:"2547...", category:"retail"}`. -/
def subjX : Subject := ⟨"A", "a@x.com", "254700000001", "retail"⟩

/-- Sample pending record for `subjX`, created at time 0, no rekey. -/
def recX : PendingRecord := ⟨subjX, 0, none⟩

/-- Sample success callback for transaction id `ws_1` with no metadata. -/
def cb0 : StkCallback := ⟨0, "ws_1", []⟩

/-- Sample environment with the shared secret configured as `"sec"`, no
specific industry group mapping, and a configured default group. -/
def envTok : Env := ⟨some "sec", fun _ => none, some "G-default"⟩

/-- Sample environment where `CALLBACK_TOKEN` is unset. -/
def envNoSecret : Env := ⟨none, fun _ => none, none⟩

/-- Sample environment mapping every industry key to group `"G1"`. -/
def envG : Env := ⟨some "sec", fun _ => some "G1", none⟩

/-- Sample subscriber already enrolled in group `"G1"`. -/
def subG : Subscriber := ⟨"id1", ["G1"]⟩

-- ===================================================================
-- Theorems
-- ===================================================================

theorem lookupStore_insert_self (st : Store) (k : String) (v : PendingRecord) :
    lookupStore (insertStore st k v) k = some v := by
  induction st with
  | nil => simp [insertStore, lookupStore]
  | cons hd tl ih =>
      by_cases h : hd.1 = k
      · simp [insertStore, lookupStore, h]
      · simp [insertStore, lookupStore, h, ih]

theorem lookupStore_insert_ne (st : Store) {k k' : String} (h : k ≠ k')
    (v : PendingRecord) :
    lookupStore (insertStore st k v) k' = lookupStore st k' := by
  induction st with
  | nil => simp [insertStore, lookupStore, h]
  | cons hd tl ih =>
      by_cases hh : hd.1 = k
      · simp [insertStore, lookupStore, hh, h]
      · simp [insertStore, lookupStore, hh, ih]

theorem lookupStore_erase_self (st : Store) (k : String) :
    lookupStore (eraseStore st k) k = none := by
  induction st with
  | nil => simp [eraseStore, lookupStore]
  | cons hd tl ih =>
      by_cases h : hd.1 = k
      · simpa [eraseStore, lookupStore, h] using ih
      · simpa [eraseStore, lookupStore, h] using ih

theorem countAdds_enrollOps (findResult : Option Subscriber)
    (email nm phone : String) (groupId : Option String) :
    countAdds (enrollOps findResult email nm phone groupId) = 1 := by
  cases findResult with
  | none => simp [enrollOps, countAdds, List.countP, List.countP.go]
  | some sub =>
      cases h : isInGroup sub groupId <;>
        simp [enrollOps, countAdds, h, List.countP, List.countP.go]

theorem countAdds_enrollOpsC (findResult : Option Subscriber)
    (email nm phone g : String) :
    countAdds (enrollOpsC findResult email nm phone (some g)) = 1 := by
  cases findResult with
  | none => simp [enrollOpsC, countAdds, List.countP, List.countP.go]
  | some sub =>
      by_cases h : g ∈ sub.groups <;>
        simp [enrollOpsC, countAdds, h, List.countP, List.countP.go]

/-- C1, counterexample: in the first src/server.js variant, after the
`/subscribe` handler binds the gateway's `CheckoutRequestID`, a
lookup-and-remove under the old locally generated reference does NOT find
nothing — `delete pending[accountRef]` never happens, so the old key still
holds the record. -/
theorem C1_counterexample :
    (takeIfPresent (subscribeA [] "REF-1" subjX 0
        (ParseResult.ok (some "ws_1"))).store "REF-1").1 ≠ none := by
  decide

/-- C1 (amended): after the `/subscribe` handler of the first src/server.js
variant records the gateway's `CheckoutRequestID`, a lookup under the new
key returns the record with the original subject data unchanged — but the
old locally generated reference key is NOT retired: a lookup-and-remove
under it still returns the same record (both keys alias one record object,
which also carries `originalRef`). -/
theorem C1_rekey_old_key_not_retired (st : Store) (ref cid : String)
    (subj : Subject) (now : Nat) :
    lookupStore (subscribeA st ref subj now (ParseResult.ok (some cid))).store cid
        = some ⟨subj, now, some ref⟩ ∧
    (takeIfPresent (subscribeA st ref subj now (ParseResult.ok (some cid))).store ref).1
        = some ⟨subj, now, some ref⟩ ∧
    (subscribeA st ref subj now (ParseResult.ok (some cid))).status = 200 ∧
    (subscribeA st ref subj now (ParseResult.ok (some cid))).body = "pending" := by
  have hstore : (subscribeA st ref subj now (ParseResult.ok (some cid))).store
      = insertStore (insertStore (insertStore st ref ⟨subj, now, none⟩) cid
          ⟨subj, now, some ref⟩) ref ⟨subj, now, some ref⟩ := rfl
  refine ⟨?_, ?_, rfl, rfl⟩
  · rw [hstore]
    by_cases h : ref = cid
    · subst h
      exact lookupStore_insert_self _ _ _
    · rw [lookupStore_insert_ne _ h]
      exact lookupStore_insert_self _ _ _
  · rw [hstore]
    simp [takeIfPresent, lookupStore_insert_self]

/-- C4 (confirmed against the spec-modelled sweep): every record whose age
`now - createdAt` exceeds `maxAge` is absent from the store after a
`sweepExpired` pass, whether or not any callback ever matched it; the sweep
returns only a store and has no caller-visible error channel. -/
theorem C4_sweep_removes_expired (st : Store) (now maxAge : Nat)
    (k : String) (r : PendingRecord) (h : maxAge < now - r.createdAt) :
    (k, r) ∉ sweepExpired st now maxAge := by
  intro hmem
  have hf := List.mem_filter.mp hmem
  have hle : now - r.createdAt ≤ maxAge := by simpa using hf.2
  omega

/-- C4 witness: a record created at time 0 is gone after a sweep at time
1000 with a 10-unit TTL. -/
theorem C4_sweep_witness :
    10 < 1000 - recX.createdAt ∧
    ("k1", recX) ∉ sweepExpired [("k1", recX)] 1000 10 :=
  ⟨by decide, C4_sweep_removes_expired [("k1", recX)] 1000 10 "k1" recX (by decide)⟩

/-- C9 (confirmed): in the token-validating variant, when `CALLBACK_TOKEN`
is unset or the request carries no `token` query parameter,
`validateSafaricomCallback` is false and the `/callback` handler answers
200 `Invalid token` without touching the store, MailerLite, or alerts. -/
theorem C9_missing_token_blocks_processing (env : Env) (st : Store)
    (tokenParam : Option String) (body : Option StkCallback)
    (findResult : Option Subscriber)
    (h : env.callbackToken = none ∨ tokenParam = none) :
    validateSafaricomCallback tokenParam env.callbackToken = false ∧
    callbackA env st tokenParam body findResult
      = ⟨st, 200, Response.ack 0 "Invalid token", [], []⟩ := by
  have hv : validateSafaricomCallback tokenParam env.callbackToken = false := by
    rcases h with h | h
    · rw [h]
      cases tokenParam with
      | none => rfl
      | some t =>
          by_cases ht : t = "" <;> simp [validateSafaricomCallback, ht]
    · rw [h]
      rfl
  exact ⟨hv, by simp [callbackA, hv]⟩

/-- C9 witness: with `CALLBACK_TOKEN` unset, even a request presenting a
token is rejected with the `Invalid token` acknowledgment. -/
theorem C9_missing_token_witness :
    validateSafaricomCallback (some "tok") envNoSecret.callbackToken = false ∧
    callbackA envNoSecret [] (some "tok") none none
      = ⟨[], 200, Response.ack 0 "Invalid token", [], []⟩ :=
  C9_missing_token_blocks_processing envNoSecret [] (some "tok") none none (Or.inl rfl)

/-- C10 (confirmed): the `/_pending` endpoint of variants B and C answers
200 with the whole pending store as the body, so every stored record —
subject name, email and phone included — is observable through it. -/
theorem C10_pending_endpoint_exposes_store (st : Store) (k : String)
    (r : PendingRecord) (h : (k, r) ∈ st) :
    (pendingEndpoint st).1 = 200 ∧ (pendingEndpoint st).2 = st ∧
    (k, r) ∈ (pendingEndpoint st).2 :=
  ⟨rfl, rfl, h⟩

/-- C10 witness: a concrete unresolved intent, with its subject data, shows
up in the `/_pending` response body. -/
theorem C10_pending_endpoint_witness :
    ("k1", recX) ∈ ([("k1", recX)] : Store) ∧
    ((pendingEndpoint [("k1", recX)]).1 = 200 ∧
      (pendingEndpoint [("k1", recX)]).2 = [("k1", recX)] ∧
      ("k1", recX) ∈ (pendingEndpoint [("k1", recX)]).2) :=
  ⟨by decide, C10_pending_endpoint_exposes_store [("k1", recX)] "k1" recX (by decide)⟩

/-- C5, counterexample: a callback request whose body carries no
`Body.stkCallback` is answered with 200 but with the `{result: ...}`
shape, not the `{ResultCode: 0, ResultDesc: ...}` acknowledgment the
claim says every path returns. -/
theorem C5_counterexample :
    (callbackA envTok [] (some "sec") none none).status = 200 ∧
    (callbackA envTok [] (some "sec") none none).response.isNeutralAck = false := by
  constructor
  · rfl
  · rfl

/-- C5 (amended): every inbound callback request is answered with HTTP 200
in all three variants, and every path answers the neutral `{ResultCode: 0,
ResultDesc: <string>}` shape except the malformed-body path (missing
`Body.stkCallback`), which answers 200 with a `{result: <string>}` body;
no path signals failure back to the gateway. -/
theorem C5_always_200_neutral (env : Env) (st stB stC : Store)
    (tokenParam ip : Option String) (body : Option StkCallback)
    (findResult findResultC : Option Subscriber) :
    ((callbackA env st tokenParam body findResult).status = 200 ∧
      ((callbackA env st tokenParam body findResult).response.isNeutralAck = true ∨
        (callbackA env st tokenParam body findResult).response
          = Response.other "result" "no-callback")) ∧
    ((callbackB stB ip body).status = 200 ∧
      ((callbackB stB ip body).response.isNeutralAck = true ∨
        (callbackB stB ip body).response
          = Response.other "result" "no-stk-callback")) ∧
    ((callbackC env stC body findResultC).status = 200 ∧
      ((callbackC env stC body findResultC).response.isNeutralAck = true ∨
        (callbackC env stC body findResultC).response
          = Response.other "result" "no-stk-callback-present")) := by
  refine ⟨?_, ?_, ?_⟩
  · by_cases hv : validateSafaricomCallback tokenParam env.callbackToken = true
    · cases body with
      | none => simp [callbackA, hv, Response.isNeutralAck]
      | some cb =>
          by_cases h0 : cb.resultCode = 0
          · cases hl : lookupStore st cb.checkoutRequestID <;>
              simp [callbackA, hv, h0, hl, Response.isNeutralAck]
          · simp [callbackA, hv, h0, Response.isNeutralAck]
    · simp [callbackA, hv, Response.isNeutralAck]
  · cases body with
    | none => simp [callbackB, Response.isNeutralAck]
    | some cb =>
        by_cases hc : cb.resultCode = 0 ∧ cb.checkoutRequestID ≠ "" ∧
            (lookupStore stB cb.checkoutRequestID).isSome
        · simp [callbackB, hc, Response.isNeutralAck]
        · simp [callbackB, hc, Response.isNeutralAck]
  · cases body with
    | none => simp [callbackC, Response.isNeutralAck]
    | some cb =>
        by_cases h0 : cb.resultCode = 0
        · cases hl : lookupStore stC (accountRefC cb) <;>
            simp [callbackC, h0, hl, Response.isNeutralAck]
        · simp [callbackC, h0, Response.isNeutralAck]

/-- C6 (confirmed): a callback with `ResultCode ≠ 0` never invokes the
downstream enrollment, emits no alert, leaves the store untouched, and is
answered with the neutral `No action taken` acknowledgment, in both
variants that do enrollment (A and C), whether or not the key matches. -/
theorem C6_nonzero_result_no_side_effect (env : Env) (st stC : Store)
    (tokenParam : Option String) (cb : StkCallback)
    (findResult findResultC : Option Subscriber)
    (hv : validateSafaricomCallback tokenParam env.callbackToken = true)
    (hrc : cb.resultCode ≠ 0) :
    callbackA env st tokenParam (some cb) findResult
      = ⟨st, 200, Response.ack 0 "No action taken", [], []⟩ ∧
    callbackC env stC (some cb) findResultC
      = ⟨stC, 200, Response.ack 0 "No action taken", [], []⟩ := by
  constructor
  · simp [callbackA, hv, hrc]
  · simp [callbackC, hrc]

/-- C6 witness: a matched-but-failed callback (`ResultCode = 1` on a store
holding its key) in variants A and C. -/
theorem C6_nonzero_result_witness :
    validateSafaricomCallback (some "sec") envTok.callbackToken = true ∧
    ((1 : Int) ≠ 0) ∧
    (callbackA envTok [("ws_1", recX)] (some "sec") (some ⟨1, "ws_1", []⟩) none
        = ⟨[("ws_1", recX)], 200, Response.ack 0 "No action taken", [], []⟩ ∧
      callbackC envTok [("ws_1", recX)] (some ⟨1, "ws_1", []⟩) none
        = ⟨[("ws_1", recX)], 200, Response.ack 0 "No action taken", [], []⟩) :=
  ⟨by decide, by decide,
    C6_nonzero_result_no_side_effect envTok [("ws_1", recX)] [("ws_1", recX)]
      (some "sec") ⟨1, "ws_1", []⟩ none none (by decide) (by decide)⟩

/-- C2, counterexample: delivering the same success callback twice, the
second delivery is a no-match — but it produces NO alert (the claim says
one alert): the handler only answers `No action taken`. -/
theorem C2_counterexample :
    lookupStore (callbackA envTok [("ws_1", recX)] (some "sec") (some cb0) none).store
        cb0.checkoutRequestID = none ∧
    (callbackA envTok (callbackA envTok [("ws_1", recX)] (some "sec") (some cb0) none).store
        (some "sec") (some cb0) none).alerts = [] := by
  constructor
  · rfl
  · rfl

/-- C2 (amended): processing a matched success callback removes the record
as part of the same decision, so the identical callback delivered a second
time finds no record and is a no-op: it answers the neutral `No action
taken` acknowledgment with no MailerLite call and NO alert (none is
emitted on the no-match path), and the downstream enrollment (`addToGroup`)
is invoked exactly once in total across both deliveries — in variant A
unconditionally, in variant C provided a group id resolves. -/
theorem C2_duplicate_callback_single_enroll (env : Env) (st stC : Store)
    (tokenParam : Option String) (cb : StkCallback) (e1 e2 : PendingRecord)
    (f1 f2 f3 f4 : Option Subscriber) (g : String)
    (hv : validateSafaricomCallback tokenParam env.callbackToken = true)
    (hrc : cb.resultCode = 0)
    (h1 : lookupStore st cb.checkoutRequestID = some e1)
    (h2 : lookupStore stC (accountRefC cb) = some e2)
    (hg : resolveGroup env e2.subject.industry = some g) :
    countAdds (callbackA env st tokenParam (some cb) f1).ops
        + countAdds (callbackA env (callbackA env st tokenParam (some cb) f1).store
            tokenParam (some cb) f2).ops = 1 ∧
    callbackA env (callbackA env st tokenParam (some cb) f1).store tokenParam (some cb) f2
      = ⟨(callbackA env st tokenParam (some cb) f1).store, 200,
         Response.ack 0 "No action taken", [], []⟩ ∧
    countAdds (callbackC env stC (some cb) f3).ops
        + countAdds (callbackC env (callbackC env stC (some cb) f3).store (some cb) f4).ops
        = 1 ∧
    callbackC env (callbackC env stC (some cb) f3).store (some cb) f4
      = ⟨(callbackC env stC (some cb) f3).store, 200,
         Response.ack 0 "No action taken", [], []⟩ := by
  have ho1 : callbackA env st tokenParam (some cb) f1
      = ⟨eraseStore st cb.checkoutRequestID, 200, Response.ack 0 "Processed",
         enrollOps f1 e1.subject.email e1.subject.name (payerPhoneA cb)
           (resolveGroup env e1.subject.industry), []⟩ := by
    simp [callbackA, hv, hrc, h1]
  have ho2 : callbackA env (callbackA env st tokenParam (some cb) f1).store
      tokenParam (some cb) f2
      = ⟨eraseStore st cb.checkoutRequestID, 200,
         Response.ack 0 "No action taken", [], []⟩ := by
    rw [ho1]
    simp [callbackA, hv, hrc, lookupStore_erase_self]
  have hp1 : callbackC env stC (some cb) f3
      = ⟨eraseStore stC (accountRefC cb), 200, Response.ack 0 "Processed",
         enrollOpsC f3 e2.subject.email e2.subject.name (payerPhoneC cb)
           (resolveGroup env e2.subject.industry), []⟩ := by
    simp [callbackC, hrc, h2]
  have hp2 : callbackC env (callbackC env stC (some cb) f3).store (some cb) f4
      = ⟨eraseStore stC (accountRefC cb), 200,
         Response.ack 0 "No action taken", [], []⟩ := by
    rw [hp1]
    simp [callbackC, hrc, lookupStore_erase_self]
  refine ⟨?_, ?_, ?_, ?_⟩
  · rw [ho2, ho1]
    show countAdds (enrollOps f1 e1.subject.email e1.subject.name (payerPhoneA cb)
        (resolveGroup env e1.subject.industry)) + countAdds [] = 1
    rw [countAdds_enrollOps]
    rfl
  · rw [ho2, ho1]
  · rw [hp2, hp1]
    show countAdds (enrollOpsC f3 e2.subject.email e2.subject.name (payerPhoneC cb)
        (resolveGroup env e2.subject.industry)) + countAdds [] = 1
    rw [hg, countAdds_enrollOpsC]
    rfl
  · rw [hp2, hp1]

/-- C2 witness: the spec's duplicate-delivery scenario run concretely in
variants A and C. -/
theorem C2_duplicate_callback_witness :
    validateSafaricomCallback (some "sec") envTok.callbackToken = true ∧
    lookupStore [("ws_1", recX)] cb0.checkoutRequestID = some recX ∧
    resolveGroup envTok recX.subject.industry = some "G-default" ∧
    (countAdds (callbackA envTok [("ws_1", recX)] (some "sec") (some cb0) none).ops
        + countAdds (callbackA envTok
            (callbackA envTok [("ws_1", recX)] (some "sec") (some cb0) none).store
            (some "sec") (some cb0) none).ops = 1 ∧
      callbackA envTok (callbackA envTok [("ws_1", recX)] (some "sec") (some cb0) none).store
          (some "sec") (some cb0) none
        = ⟨(callbackA envTok [("ws_1", recX)] (some "sec") (some cb0) none).store, 200,
           Response.ack 0 "No action taken", [], []⟩ ∧
      countAdds (callbackC envTok [("ws_1", recX)] (some cb0) none).ops
          + countAdds (callbackC envTok
              (callbackC envTok [("ws_1", recX)] (some cb0) none).store (some cb0) none).ops
          = 1 ∧
      callbackC envTok (callbackC envTok [("ws_1", recX)] (some cb0) none).store
          (some cb0) none
        = ⟨(callbackC envTok [("ws_1", recX)] (some cb0) none).store, 200,
           Response.ack 0 "No action taken", [], []⟩) :=
  ⟨by decide, by decide, by decide,
    C2_duplicate_callback_single_enroll envTok [("ws_1", recX)] [("ws_1", recX)]
      (some "sec") cb0 recX recX none none none none "G-default"
      (by decide) rfl (by decide) (by decide) (by decide)⟩

/-- C7, counterexample: in the second src/server.js variant the gateway
response is parsed with a bare `JSON.parse`, so a non-JSON body makes the
handler answer 500 `Failed to initiate payment` instead of `pending`. -/
theorem C7_counterexample :
    (subscribeB [] subjX 0 ParseResult.fail).status = 500 ∧
    (subscribeB [] subjX 0 ParseResult.fail).body ≠ "pending" := by
  constructor
  · rfl
  · decide

/-- C7 (amended): when the gateway's synchronous response body is not
valid JSON, the first src/server.js variant and the part_000 variant catch
the parse failure, record nothing under a `CheckoutRequestID` (the record
stays under the local reference key only), and still answer the caller
`pending`; the second src/server.js variant instead lets the parse
exception reach its outer catch and answers 500 with nothing recorded. -/
theorem C7_parse_failure_paths (st : Store) (ref : String) (subj : Subject)
    (now : Nat)
    (h : subj.name ≠ "" ∧ subj.email ≠ "" ∧ subj.phone ≠ "" ∧ subj.industry ≠ "") :
    subscribeA st ref subj now ParseResult.fail
      = ⟨insertStore st ref ⟨subj, now, none⟩, 200, "pending"⟩ ∧
    subscribeC st ref subj now ParseResult.fail
      = ⟨insertStore st ref ⟨subj, now, none⟩, 200, "pending"⟩ ∧
    subscribeB st subj now ParseResult.fail
      = ⟨st, 500, "Failed to initiate payment"⟩ := by
  obtain ⟨h1, h2, h3, h4⟩ := h
  refine ⟨rfl, ?_, ?_⟩
  · simp [subscribeC, h1, h2, h3, h4]
  · simp [subscribeB, h1, h2, h3, h4]

/-- C7 witness: a concrete subscribe attempt whose gateway response fails
to parse, in all three variants. -/
theorem C7_parse_failure_witness :
    (subjX.name ≠ "" ∧ subjX.email ≠ "" ∧ subjX.phone ≠ "" ∧ subjX.industry ≠ "") ∧
    (subscribeA [] "REF-1" subjX 0 ParseResult.fail
        = ⟨insertStore [] "REF-1" ⟨subjX, 0, none⟩, 200, "pending"⟩ ∧
      subscribeC [] "REF-1" subjX 0 ParseResult.fail
        = ⟨insertStore [] "REF-1" ⟨subjX, 0, none⟩, 200, "pending"⟩ ∧
      subscribeB [] subjX 0 ParseResult.fail
        = ⟨[], 500, "Failed to initiate payment"⟩) :=
  ⟨by decide, C7_parse_failure_paths [] "REF-1" subjX 0 (by decide)⟩

/-- C8 (confirmed): in the success branch of the enrollment workflow of
both enrolling variants — variant A's `/callback` (via `findSubscriber`,
`removeFromGroup`, `addToGroup`) and part_000's inline workflow — when the
subject is already a member of the resolved target group, the handler
issues exactly `findSubscriber`, then `removeFromGroup`, then `addToGroup`:
the removal always precedes the add, and an add without a prior remove
happens only when the subject is not already a member. -/
theorem C8_remove_precedes_add (env : Env) (st stC : Store)
    (tokenParam : Option String) (cb cbC : StkCallback)
    (entry entryC : PendingRecord) (sub subC : Subscriber) (g : String)
    (hv : validateSafaricomCallback tokenParam env.callbackToken = true)
    (hrc : cb.resultCode = 0)
    (hl : lookupStore st cb.checkoutRequestID = some entry)
    (hg : isInGroup sub (resolveGroup env entry.subject.industry) = true)
    (hrcC : cbC.resultCode = 0)
    (hlC : lookupStore stC (accountRefC cbC) = some entryC)
    (hgC : resolveGroup env entryC.subject.industry = some g)
    (hmemC : g ∈ subC.groups) :
    (callbackA env st tokenParam (some cb) (some sub)).ops
      = [MLOp.find entry.subject.email,
         MLOp.remove sub.id (resolveGroup env entry.subject.industry),
         MLOp.add entry.subject.email entry.subject.name (payerPhoneA cb)
           (resolveGroup env entry.subject.industry)] ∧
    (∀ sub' : Subscriber, isInGroup sub' (resolveGroup env entry.subject.industry) = false →
      (callbackA env st tokenParam (some cb) (some sub')).ops
        = [MLOp.find entry.subject.email,
           MLOp.add entry.subject.email entry.subject.name (payerPhoneA cb)
             (resolveGroup env entry.subject.industry)]) ∧
    (callbackC env stC (some cbC) (some subC)).ops
      = [MLOp.find entryC.subject.email,
         MLOp.remove subC.id (some g),
         MLOp.add entryC.subject.email entryC.subject.name (payerPhoneC cbC) (some g)] ∧
    (∀ sub' : Subscriber, g ∉ sub'.groups →
      (callbackC env stC (some cbC) (some sub')).ops
        = [MLOp.find entryC.subject.email,
           MLOp.add entryC.subject.email entryC.subject.name (payerPhoneC cbC) (some g)]) := by
  refine ⟨?_, ?_, ?_, ?_⟩
  · simp [callbackA, hv, hrc, hl, enrollOps, hg]
  · intro sub' hg'
    simp [callbackA, hv, hrc, hl, enrollOps, hg']
  · simp [callbackC, hrcC, hlC, hgC, enrollOpsC, hmemC]
  · intro sub' hg'
    simp [callbackC, hrcC, hlC, hgC, enrollOpsC, hg']

/-- C8 witness: a subject already enrolled in group `G1` is removed from it
before being re-added, in both enrolling variants; a subject not in the
group is added without a remove. -/
theorem C8_remove_precedes_add_witness :
    validateSafaricomCallback (some "sec") envG.callbackToken = true ∧
    lookupStore [("ws_1", recX)] cb0.checkoutRequestID = some recX ∧
    isInGroup subG (resolveGroup envG recX.subject.industry) = true ∧
    lookupStore [("ws_1", recX)] (accountRefC cb0) = some recX ∧
    resolveGroup envG recX.subject.industry = some "G1" ∧
    ("G1" : String) ∈ subG.groups ∧
    ((callbackA envG [("ws_1", recX)] (some "sec") (some cb0) (some subG)).ops
        = [MLOp.find recX.subject.email,
           MLOp.remove subG.id (resolveGroup envG recX.subject.industry),
           MLOp.add recX.subject.email recX.subject.name (payerPhoneA cb0)
             (resolveGroup envG recX.subject.industry)] ∧
      (∀ sub' : Subscriber,
        isInGroup sub' (resolveGroup envG recX.subject.industry) = false →
        (callbackA envG [("ws_1", recX)] (some "sec") (some cb0) (some sub')).ops
          = [MLOp.find recX.subject.email,
             MLOp.add recX.subject.email recX.subject.name (payerPhoneA cb0)
               (resolveGroup envG recX.subject.industry)]) ∧
      (callbackC envG [("ws_1", recX)] (some cb0) (some subG)).ops
        = [MLOp.find recX.subject.email,
           MLOp.remove subG.id (some "G1"),
           MLOp.add recX.subject.email recX.subject.name (payerPhoneC cb0) (some "G1")] ∧
      (∀ sub' : Subscriber, "G1" ∉ sub'.groups →
        (callbackC envG [("ws_1", recX)] (some cb0) (some sub')).ops
          = [MLOp.find recX.subject.email,
             MLOp.add recX.subject.email recX.subject.name (payerPhoneC cb0)
               (some "G1")])) :=
  ⟨by decide, by decide, by decide, by decide, by decide, by decide,
    C8_remove_precedes_add envG [("ws_1", recX)] [("ws_1", recX)] (some "sec")
      cb0 cb0 recX recX subG subG "G1"
      (by decide) rfl (by decide) (by decide) rfl (by decide) (by decide) (by decide)⟩

end MpesaStk
